import Mathlib

/-!
Verification of the startup bootstrap `run_edgex_grid.py` (configuration
resolution, endpoint validation, remote authorization gate, adapter/engine
construction).  The script is embedded shallowly: Python values are modelled
by `PyVal`, the three configuration sources (environment, optional YAML file,
hardcoded defaults) are explicit inputs, the single authorization HTTP call is
modelled by its possible outcomes (`AuthOutcome`), and `mainRun` is a pure
function from a `World` of inputs to the list of observable events together
with the final outcome of the process (a `SystemExit` with a message, an
unhandled Python exception, or a started engine).
-/

namespace EdgeXBoot

/-- A Python runtime value, restricted to the shapes that flow through the
bootstrap: `None`, booleans, integers, floats (modelled as rationals; IEEE
infinities and NaN are outside this model), strings, lists and string-keyed
dicts (YAML/JSON mappings). -/
inductive PyVal where
  | none
  | bool (b : Bool)
  | intv (n : Int)
  | float (q : ℚ)
  | str (s : String)
  | list (xs : List PyVal)
  | dict (kvs : List (String × PyVal))

/-- Python truthiness (`bool(x)`): `None`, `False`, zero, empty string and
empty containers are falsy. -/
def truthy : PyVal → Bool
  | .none => false
  | .bool b => b
  | .intv n => n != 0
  | .float q => q != 0
  | .str s => s != ""
  | .list xs => !xs.isEmpty
  | .dict kvs => !kvs.isEmpty

/-- Python `a or b`: the first operand when truthy, otherwise the second. -/
def pyOr (a b : PyVal) : PyVal := if truthy a then a else b

/-- `dict.get(k)`: value of the first binding of `k`, `None` when absent. -/
def dictGet (kvs : List (String × PyVal)) (k : String) : PyVal :=
  match kvs.find? (fun p => p.1 == k) with
  | some p => p.2
  | Option.none => .none

/-- `dict.get(k, d)`: value of the first binding of `k`, `d` when absent. -/
def dictGetD (kvs : List (String × PyVal)) (k : String) (d : PyVal) : PyVal :=
  match kvs.find? (fun p => p.1 == k) with
  | some p => p.2
  | Option.none => d

/-- ASCII lowercase of a string (the identifiers this script lowercases —
URL schemes and hostnames, the `allowed` field's string form — are ASCII). -/
def lowerStr (s : String) : String := String.mk (s.data.map Char.toLower)

/-- Decimal digits of the fractional part of a terminating decimal
(remainder `r` over denominator `d`), with fuel. -/
def fracDigits : Nat → Nat → Nat → String
  | 0, _, _ => ""
  | _ + 1, 0, _ => ""
  | fuel + 1, r, d =>
    let r10 := r * 10
    toString (r10 / d) ++ fracDigits fuel (r10 % d) d

/-- `str` of a float value, for terminating decimals (`2.5` ↦ `"2.5"`).
Only values of this shape reach `str` in the bootstrap. -/
def floatStr (q : ℚ) : String :=
  let sign := if q < 0 then "-" else ""
  let n := q.num.natAbs
  let d := q.den
  let r := n % d
  sign ++ toString (n / d) ++ "." ++ (if r = 0 then "0" else fracDigits 30 r d)

/-- Python `str(x)` for the values that can reach it here.  The rendering of
list/dict payloads is abbreviated: no decision in the bootstrap depends on it
(a container's string form never matches `"1"`, `"true"` or `"yes"`). -/
def pyStr : PyVal → String
  | .none => "None"
  | .bool true => "True"
  | .bool false => "False"
  | .intv n => toString n
  | .float q => floatStr q
  | .str s => s
  | .list _ => "[...]"
  | .dict _ => "\x7b...\x7d"

/-- ASCII whitespace stripped by `int()`/`float()` conversions. -/
def isSpaceChar (c : Char) : Bool := c == ' ' || c == '\t' || c == '\n' || c == '\r'

/-- `str.strip()` restricted to ASCII whitespace. -/
def stripChars (l : List Char) : List Char :=
  ((l.dropWhile isSpaceChar).reverse.dropWhile isSpaceChar).reverse

/-- Scan a run of decimal digits with Python's underscore rule (an underscore
must sit between two digits).  Returns the accumulated value, the number of
digits read, and the unread rest; `none` on a misplaced underscore. -/
def numCoreU (acc nd : Nat) : List Char → Option (Nat × Nat × List Char)
  | [] => some (acc, nd, [])
  | c :: rest =>
    if c.isDigit then numCoreU (acc * 10 + (c.toNat - 48)) (nd + 1) rest
    else if c = '_' then
      if nd = 0 then Option.none
      else
        match rest with
        | d :: _ => if d.isDigit then numCoreU acc nd rest else Option.none
        | [] => Option.none
    else some (acc, nd, c :: rest)

/-- Python `int(s)` on a string: optional surrounding whitespace, optional
sign, decimal digits (underscores allowed between digits).  Restricted to
ASCII digits (Python additionally accepts Unicode decimal digits). -/
def pyIntStr (s : String) : Option Int :=
  let l := stripChars s.data
  let p : Int × List Char :=
    match l with
    | '+' :: r => (1, r)
    | '-' :: r => (-1, r)
    | r => (1, r)
  match numCoreU 0 0 p.2 with
  | some (v, nd, []) => if nd = 0 then Option.none else some (p.1 * (v : Int))
  | _ => Option.none

/-- Optional exponent suffix of a float literal (`e`/`E`, sign, digits);
`some 0` on the empty rest, `none` when the rest is not a valid suffix. -/
def expVal : List Char → Option Int
  | [] => some 0
  | c :: rest =>
    if c == 'e' || c == 'E' then
      let p : Int × List Char :=
        match rest with
        | '+' :: r2 => (1, r2)
        | '-' :: r2 => (-1, r2)
        | r2 => (1, r2)
      match numCoreU 0 0 p.2 with
      | some (v, nd, []) => if nd = 0 then Option.none else some (p.1 * (v : Int))
      | _ => Option.none
    else Option.none

/-- The rational `sgn * (ip * 10^nFrac + fp) / 10^nFrac * 10^e`, built as a
single `Rat.divInt` of explicit integer arithmetic. -/
def ratOfParts (sgn : Int) (ip fp nFrac : Nat) (e : Int) : ℚ :=
  let num0 : Int := sgn * ((ip * 10 ^ nFrac + fp : Nat) : Int)
  if 0 ≤ e then Rat.divInt (num0 * (10 ^ e.toNat : Nat)) (10 ^ nFrac : Nat)
  else Rat.divInt num0 ((10 ^ nFrac * 10 ^ (-e).toNat : Nat) : Int)

/-- Python `float(s)` on a string: sign, integer part, optional fractional
part, optional exponent, underscores between digits.  `inf`/`nan` literals are
outside this rational model (no claim depends on them). -/
def pyFloatStr (s : String) : Option ℚ :=
  let l := stripChars s.data
  let p : Int × List Char :=
    match l with
    | '+' :: r => (1, r)
    | '-' :: r => (-1, r)
    | r => (1, r)
  match numCoreU 0 0 p.2 with
  | Option.none => Option.none
  | some (ip, nInt, r1) =>
    match r1 with
    | '.' :: r2 =>
      match numCoreU 0 0 r2 with
      | Option.none => Option.none
      | some (fp, nFrac, r3) =>
        if nInt = 0 && nFrac = 0 then Option.none
        else
          match expVal r3 with
          | some e => some (ratOfParts p.1 ip fp nFrac e)
          | Option.none => Option.none
    | _ =>
      if nInt = 0 then Option.none
      else
        match expVal r1 with
        | some e => some (ratOfParts p.1 ip 0 0 e)
        | Option.none => Option.none

/-- Python `float(x)`: numbers convert, strings parse, everything else raises
(`None`/containers raise `TypeError`, bad strings `ValueError` — both are
swallowed identically by the caller's `except Exception`). -/
def pyFloat : PyVal → Option ℚ
  | .intv n => some (Rat.divInt n 1)
  | .float q => some q
  | .bool b => some (Rat.divInt (if b then 1 else 0) 1)
  | .str s => pyFloatStr s
  | _ => Option.none

/-- Python `int(x)`: the error string names the exception class raised. -/
def pyIntOf : PyVal → Except String Int
  | .intv n => .ok n
  | .bool b => .ok (if b then 1 else 0)
  | .float q => .ok (Int.tdiv q.num (q.den : Int))
  | .str s =>
    match pyIntStr s with
    | some n => .ok n
    | Option.none => .error "ValueError"
  | .none => .error "TypeError"
  | .list _ => .error "TypeError"
  | .dict _ => .error "TypeError"

/-! ### `urllib.parse.urlparse`, restricted to the fields the script reads -/

/-- Characters allowed in a URL scheme after the leading letter. -/
def schemeChar (c : Char) : Bool := c.isAlpha || c.isDigit || c == '+' || c == '-' || c == '.'

/-- Split off the scheme: the text before the first `:` when it is nonempty,
starts with an ASCII letter and consists of scheme characters; the scheme is
lowercased.  Otherwise the scheme is empty and nothing is consumed. -/
def splitScheme (l : List Char) : List Char × List Char :=
  match l.findIdx? (fun c => c == ':') with
  | some i =>
    if 0 < i && (l.take i).all schemeChar &&
        (match l.head? with | some c => c.isAlpha | Option.none => false)
    then ((l.take i).map Char.toLower, l.drop (i + 1))
    else ([], l)
  | Option.none => ([], l)

/-- Network location: present only when the rest starts with `//`, extending
to the next `/`, `?` or `#`. -/
def splitNetloc (l : List Char) : List Char :=
  match l with
  | '/' :: '/' :: rest => rest.takeWhile (fun c => c != '/' && c != '?' && c != '#')
  | _ => []

/-- Part of the netloc after the last `@` (the host-and-port section). -/
def afterLastAt (l : List Char) : List Char :=
  (l.reverse.takeWhile (fun c => c != '@')).reverse

/-- Host part of the host-and-port section: for a bracketed IPv6 literal the
text between `[` and `]`, otherwise the text before the first `:`. -/
def hostPart (hi : List Char) : List Char :=
  if hi.contains '[' then ((hi.dropWhile (fun c => c != '[')).drop 1).takeWhile (fun c => c != ']')
  else hi.takeWhile (fun c => c != ':')

/-- `urlparse(u).scheme`. -/
def urlScheme (u : String) : String := String.mk (splitScheme u.data).1

/-- `urlparse(u).netloc`. -/
def urlNetloc (u : String) : String := String.mk (splitNetloc (splitScheme u.data).2)

/-- `urlparse(u).hostname`: the lowercased host, `None` when empty. -/
def urlHostname (u : String) : Option String :=
  let h := (hostPart (afterLastAt (splitNetloc (splitScheme u.data).2))).map Char.toLower
  if h.isEmpty then Option.none else some (String.mk h)

/-- `needle` starts the given list. -/
def startsWithL : List Char → List Char → Bool
  | [], _ => true
  | _ :: _, [] => false
  | a :: as, b :: bs => a == b && startsWithL as bs

/-- `needle` occurs as a contiguous sublist. -/
def listContainsSub (needle : List Char) : List Char → Bool
  | [] => needle.isEmpty
  | c :: rest => startsWithL needle (c :: rest) || listContainsSub needle rest

/-- Python `needle in hay` on strings (substring test). -/
def strContains (hay needle : String) : Bool := listContainsSub needle.data hay.data

/-! ### Messages of the fatal `SystemExit` aborts (verbatim from the script) -/

def msgBadBaseUrl : String := "EDGEX_BASE_URL が不正です（https://ホスト名 を設定してください）"

def msgPlaceholderUrl : String := "EDGEX_BASE_URL がプレースホルダです。実際のAPIベースURLに置き換えてください。"

def msgNoSdkKey : String := "EDGEX_STARK_PRIVATE_KEY (or EDGEX_L2_KEY) が未設定です"

def msgNoAccountId : String := "EDGEX_ACCOUNT_ID が未設定です"

def msgAuthDenied (acct : String) : String := "認証NG: account_id=" ++ acct

def msgAuthCheckFailed (e : String) : String := "認証サーバ接続失敗: " ++ e

/-- Lines 55-59 of the script: reject a base URL whose parse lacks a scheme
or netloc, or whose (truthy) hostname contains the placeholder marker
`"example"`.  Returns the `SystemExit` message, or `none` when the URL
passes. -/
def validateBaseUrl (u : String) : Option String :=
  if urlScheme u = "" ∨ urlNetloc u = "" then some msgBadBaseUrl
  else
    match urlHostname u with
    | some h => if strContains h "example" then some msgPlaceholderUrl else Option.none
    | Option.none => Option.none

/-! ### Setting resolution (lines 39-53, 66, 89-95 of the script) -/

/-- `os.getenv(k)`: the environment value as a Python string, `None` when the
variable is unset. -/
def envVal (env : String → Option String) (k : String) : PyVal :=
  match env k with
  | some s => .str s
  | Option.none => .none

/-- `os.getenv(k, d)`: presence-based — a set-but-empty variable still wins
over the default. -/
def getenvD (env : String → Option String) (k : String) (d : PyVal) : PyVal :=
  match env k with
  | some s => .str s
  | Option.none => d

/-- Line 39: `os.getenv("EDGEX_BASE_URL") or cfg.get("base_url") or
"https://pro.edgex.exchange"`. -/
def resolveBaseUrl (env : String → Option String) (kvs : List (String × PyVal)) : PyVal :=
  pyOr (envVal env "EDGEX_BASE_URL")
    (pyOr (dictGet kvs "base_url") (.str "https://pro.edgex.exchange"))

/-- Lines 40-45: account id from two environment names, then two config
keys; no default. -/
def resolveApiId (env : String → Option String) (kvs : List (String × PyVal)) : PyVal :=
  pyOr (envVal env "EDGEX_ACCOUNT_ID")
    (pyOr (envVal env "EDGEX_API_ID")
      (pyOr (dictGet kvs "account_id") (dictGet kvs "api_id")))

/-- Line 46: signing key from two environment names only. -/
def resolveSdkKey (env : String → Option String) : PyVal :=
  pyOr (envVal env "EDGEX_STARK_PRIVATE_KEY") (envVal env "EDGEX_L2_KEY")

/-- Line 48: `os.getenv("EDGEX_SYMBOL_PARAM", cfg.get("symbol_param",
"contractId"))` — both lookups are presence-based, not truthiness-based. -/
def resolveSymbolParam (env : String → Option String) (kvs : List (String × PyVal)) : PyVal :=
  getenvD env "EDGEX_SYMBOL_PARAM" (dictGetD kvs "symbol_param" (.str "contractId"))

/-- Lines 49-53: symbol from `EDGEX_CONTRACT_ID`, `EDGEX_SYMBOL`, config
`symbol`, config `contract_id`, default `"10000001"` (grouped as in the
script: the two config lookups are combined first). -/
def resolveSymbol (env : String → Option String) (kvs : List (String × PyVal)) : PyVal :=
  let symbol_cfg := pyOr (dictGet kvs "symbol") (dictGet kvs "contract_id")
  pyOr (envVal env "EDGEX_CONTRACT_ID")
    (pyOr (envVal env "EDGEX_SYMBOL") (pyOr symbol_cfg (.str "10000001")))

/-- Line 66: `cfg.get("auth_url") or default_auth_url`. -/
def defaultAuthUrl : String :=
  "https://script.google.com/macros/s/AKfycbz5qTzBD62-FRdRwA0qBzxPy6fGj3fuuRwx4fQ0cNj-qmLtWwOqo9UZDnc0tv31ezMl/exec"

def resolveAuthUrl (kvs : List (String × PyVal)) : PyVal :=
  pyOr (dictGet kvs "auth_url") (.str defaultAuthUrl)

/-- The literal `2.5` of lines 89 and 93 (written via `Rat.divInt` so that it
evaluates; `pollDefault = 5/2` is proved where the claims need it). -/
def pollDefault : ℚ := Rat.divInt 5 2

/-- The literal `1.5` of lines 94-95, the polling floor. -/
def pollFloor : ℚ := Rat.divInt 3 2

/-- Line 89: the raw poll-interval value before numeric conversion. -/
def resolvePollRaw (env : String → Option String) (kvs : List (String × PyVal)) : PyVal :=
  pyOr (envVal env "EDGEX_POLL_INTERVAL_SEC")
    (dictGetD kvs "poll_interval_sec" (.float pollDefault))

/-- Lines 89-95: convert with `float(...)`, fall back to 2.5 on any
conversion error, then clamp below 1.5 up to 1.5. -/
def resolvePoll (env : String → Option String) (kvs : List (String × PyVal)) : ℚ :=
  let p : ℚ :=
    match pyFloat (resolvePollRaw env kvs) with
    | some q => q
    | Option.none => pollDefault
  if p < pollFloor then pollFloor else p

/-- Spec-side ordered-fallback combinator (§4.1/§9 of the spec): evaluate a
precedence chain left to right, the first truthy (non-empty) value wins, the
final element is returned as-is when everything earlier is falsy. -/
def chainFirstTruthy : List PyVal → PyVal → PyVal
  | [], d => d
  | v :: vs, d => if truthy v then v else chainFirstTruthy vs d

/-- Spec-side resolution of `symbol_param_name` per the spec's words
(first NON-EMPTY value wins, empties fall through), for comparison with the
script's presence-based `resolveSymbolParam`. -/
def symbolParamSpecChain (env : String → Option String) (kvs : List (String × PyVal)) : PyVal :=
  chainFirstTruthy [envVal env "EDGEX_SYMBOL_PARAM", dictGet kvs "symbol_param"]
    (.str "contractId")

/-! ### The authorization gate (lines 62-86) -/

/-- Result of `r.json()`: a parsed JSON body, or the exception text when the
body is not JSON. -/
inductive JsonOutcome where
  | notJson (err : String)
  | json (v : PyVal)

/-- Outcome of the single `GET {auth_url}?accountId=...`: a transport-level
failure (connection error / timeout, carrying `str(e)`), or a response with a
status code, the text of the `HTTPStatusError` that `raise_for_status` would
raise for it, and the body. -/
inductive AuthOutcome where
  | netError (err : String)
  | response (status : Nat) (statusErr : String) (body : JsonOutcome)

/-- The spec's `AuthDecision` (§3 of the spec). -/
inductive AuthDecision where
  | allowed
  | denied
  | checkFailed (cause : String)
deriving DecidableEq

/-- `httpx` success statuses (2xx): the only ones `raise_for_status` lets
through. -/
def is2xx (st : Nat) : Bool := 200 ≤ st && st < 300

/-- The truthy string forms of the `allowed` field (line 77):
`str(x).lower() in ("1", "true", "yes")`. -/
def truthyAllowedStr (s : String) : Bool := s == "1" || s == "true" || s == "yes"

/-- Line 76: `body.get("allowed") if isinstance(body, dict) else None`. -/
def allowedRaw : PyVal → PyVal
  | .dict kvs => dictGet kvs "allowed"
  | _ => .none

/-- Lines 76-77: is the response body's `allowed` field truthy? -/
def allowedOf (body : PyVal) : Bool := truthyAllowedStr (lowerStr (pyStr (allowedRaw body)))

/-- Lines 67-86 condensed to the decision: a transport error, a non-2xx
status (`raise_for_status`) or a non-JSON body is a check failure; a 2xx JSON
body is allowed exactly when its `allowed` field is truthy, denied
otherwise. -/
def authClassify : AuthOutcome → AuthDecision
  | .netError m => .checkFailed m
  | .response st sm body =>
    if is2xx st then
      match body with
      | .notJson m => .checkFailed m
      | .json v => if allowedOf v then .allowed else .denied
    else .checkFailed sm

/-! ### The bootstrap `main` (the whole script) -/

/-- State of `configs/edgex.yaml`: absent (`FileNotFoundError`), present but
unparseable (`yaml.YAMLError`), or parsed to a YAML value. -/
inductive CfgFile where
  | absent
  | unparseable
  | parsed (v : PyVal)

/-- Lines 32-36: an absent file yields `{}`; a falsy parse result (empty
file, empty list, ...) also yields `{}` via `safe_load(f) or {}`; a parse
error propagates. -/
def loadCfg : CfgFile → Except String PyVal
  | .absent => .ok (.dict [])
  | .unparseable => .error "yaml.YAMLError"
  | .parsed v => .ok (if truthy v then v else .dict [])

/-- Lines 15-30: best-effort file-logging setup; an exception is possible. -/
def setupFileLogging (fails : Bool) : Except String Unit :=
  if fails then .error "OSError" else .ok ()

/-- Lines 28-30: `except Exception: pass` — whatever happened, continue. -/
def trySwallow (_ : Except String Unit) : Unit := ()

/-- The external inputs of one bootstrap run: the process environment, the
config file's state, the outcome the authorization HTTP call would have, and
whether file-logging setup raises. -/
structure World where
  env : String → Option String
  cfgFile : CfgFile
  auth : AuthOutcome
  logSetupFails : Bool

/-- `EdgeXSDKAdapter(base_url=..., account_id=int(api_id),
stark_private_key=...)` (lines 101-105). -/
structure Adapter where
  base_url : PyVal
  account_id : Int
  stark_private_key : PyVal

/-- `GridEngine(adapter=..., symbol=..., poll_interval_sec=...)`
(lines 107-111). -/
structure Engine where
  adapter : Adapter
  symbol : PyVal
  poll_interval_sec : ℚ

/-- Observable events of a run, in order: the authorization HTTP call was
attempted; the adapter was constructed; the engine was constructed. -/
inductive Ev where
  | httpAuthGet
  | mkAdapter
  | mkEngine
deriving DecidableEq

/-- Final outcome of the process: `SystemExit` with a message, an unhandled
Python exception (named by its class), or `engine.run()` reached with the
constructed objects. -/
inductive BootResult where
  | exit (msg : String)
  | pyError (exc : String)
  | started (a : Adapter) (e : Engine)

def isStarted : BootResult → Bool
  | .started _ _ => true
  | _ => false

def isExit : BootResult → Bool
  | .exit _ => true
  | _ => false

/-- Lines 39-113 with a successfully loaded mapping config: resolve settings,
validate the base URL, run the authorization gate, resolve the poll interval,
check the credentials, construct adapter and engine, start the engine. -/
def mainWithCfg (w : World) (kvs : List (String × PyVal)) : List Ev × BootResult :=
  let base_url := resolveBaseUrl w.env kvs
  let api_id := resolveApiId w.env kvs
  let sdk_key := resolveSdkKey w.env
  let _symbol_param := resolveSymbolParam w.env kvs
  let symbol := resolveSymbol w.env kvs
  -- line 55: urlparse(base_url or "") — a truthy non-string would raise
  match (if truthy base_url then base_url else PyVal.str "") with
  | .str bu =>
    match validateBaseUrl bu with
    | some m => ([], .exit m)
    | Option.none =>
      let _auth_url := resolveAuthUrl kvs
      let acct := pyStr api_id
      match authClassify w.auth with
      | .denied => ([Ev.httpAuthGet], .exit (msgAuthDenied acct))
      | .checkFailed m => ([Ev.httpAuthGet], .exit (msgAuthCheckFailed m))
      | .allowed =>
        let poll := resolvePoll w.env kvs
        if truthy sdk_key = false then ([Ev.httpAuthGet], .exit msgNoSdkKey)
        else if truthy api_id = false then ([Ev.httpAuthGet], .exit msgNoAccountId)
        else
          match pyIntOf api_id with
          | .error e => ([Ev.httpAuthGet], .pyError e)
          | .ok n =>
            let adapter : Adapter := ⟨base_url, n, sdk_key⟩
            let engine : Engine := ⟨adapter, symbol, poll⟩
            ([Ev.httpAuthGet, Ev.mkAdapter, Ev.mkEngine], .started adapter engine)
  | _ => ([], .pyError "TypeError")

/-- The whole of `main()`: logging setup is swallowed; a config parse error
propagates; a truthy non-mapping config raises `AttributeError` at the first
(always-evaluated) `cfg.get` — line 48 at the latest; otherwise proceed with
the mapping. -/
def mainRun (w : World) : List Ev × BootResult :=
  let _ := trySwallow (setupFileLogging w.logSetupFails)
  match loadCfg w.cfgFile with
  | .error e => ([], .pyError e)
  | .ok (.dict kvs) => mainWithCfg w kvs
  | .ok _ => ([], .pyError "AttributeError")

/-- Environment built from an association list (for concrete runs). -/
def envOf (l : List (String × String)) : String → Option String :=
  fun k => (l.find? (fun p => p.1 == k)).map (fun p => p.2)

/-! ### Claims -/

/-- C1: the authorization gate fails closed.  For every outcome of the
authorization HTTP call other than a 2xx JSON response whose `allowed` field
is truthy (i.e. whenever the gate does not decide `Allowed` — network error,
timeout, non-JSON body, non-2xx status, or explicit denial), the bootstrap
never constructs the adapter or the engine and never starts the engine, and
whenever the flow got far enough to attempt the call it aborts with
`SystemExit`; `Denied` and `CheckFailed` block startup identically. -/
theorem C1_auth_gate_fails_closed (w : World)
    (h : authClassify w.auth ≠ AuthDecision.allowed) :
    Ev.mkAdapter ∉ (mainRun w).1 ∧ Ev.mkEngine ∉ (mainRun w).1 ∧
    isStarted (mainRun w).2 = false ∧
    (Ev.httpAuthGet ∈ (mainRun w).1 → isExit (mainRun w).2 = true) := by
  have hb : (!(mainRun w).1.contains Ev.mkAdapter && !(mainRun w).1.contains Ev.mkEngine &&
      !isStarted (mainRun w).2 &&
      (!(mainRun w).1.contains Ev.httpAuthGet || isExit (mainRun w).2)) = true := by
    unfold mainRun mainWithCfg
    dsimp only
    repeat' split
    all_goals first
      | (exact absurd (by assumption) h)
      | rfl
  simp only [Bool.and_eq_true, Bool.or_eq_true, Bool.not_eq_true'] at hb
  obtain ⟨⟨⟨h1, h2⟩, h3⟩, h4⟩ := hb
  refine ⟨by simpa using h1, by simpa using h2, h3, fun hm => ?_⟩
  rcases h4 with h4 | h4
  · have : (mainRun w).1.contains Ev.httpAuthGet = true := by simpa using hm
    rw [this] at h4
    cases h4
  · exact h4

/-- C1 witness: an explicit denial (`allowed: "false"`) blocks startup, and a
connection failure blocks it the same way. -/
theorem C1_auth_gate_fails_closed_witness :
    (Ev.mkAdapter ∉ (mainRun ⟨envOf [("EDGEX_ACCOUNT_ID", "42")], .absent,
        .response 200 "" (.json (.dict [("allowed", .str "false")])), false⟩).1 ∧
      Ev.mkEngine ∉ (mainRun ⟨envOf [("EDGEX_ACCOUNT_ID", "42")], .absent,
        .response 200 "" (.json (.dict [("allowed", .str "false")])), false⟩).1 ∧
      isStarted (mainRun ⟨envOf [("EDGEX_ACCOUNT_ID", "42")], .absent,
        .response 200 "" (.json (.dict [("allowed", .str "false")])), false⟩).2 = false ∧
      (Ev.httpAuthGet ∈ (mainRun ⟨envOf [("EDGEX_ACCOUNT_ID", "42")], .absent,
          .response 200 "" (.json (.dict [("allowed", .str "false")])), false⟩).1 →
        isExit (mainRun ⟨envOf [("EDGEX_ACCOUNT_ID", "42")], .absent,
          .response 200 "" (.json (.dict [("allowed", .str "false")])), false⟩).2 = true)) ∧
    (Ev.mkAdapter ∉ (mainRun ⟨envOf [], .absent, .netError "timeout", false⟩).1 ∧
      Ev.mkEngine ∉ (mainRun ⟨envOf [], .absent, .netError "timeout", false⟩).1 ∧
      isStarted (mainRun ⟨envOf [], .absent, .netError "timeout", false⟩).2 = false ∧
      (Ev.httpAuthGet ∈ (mainRun ⟨envOf [], .absent, .netError "timeout", false⟩).1 →
        isExit (mainRun ⟨envOf [], .absent, .netError "timeout", false⟩).2 = true)) :=
  ⟨C1_auth_gate_fails_closed _ (by decide), C1_auth_gate_fails_closed _ (by decide)⟩

/-- C2: for every 2xx response with a JSON body, the gate decides `Allowed`
iff the lowercased string form of the body's `allowed` field (`None` for an
absent field or a non-mapping body) is one of `"1"`, `"true"`, `"yes"`;
anything else — including an absent field or a non-mapping body — yields
`Denied`, never a check failure. -/
theorem C2_allowed_value_decides (st : Nat) (sm : String) (v : PyVal)
    (h1 : 200 ≤ st) (h2 : st < 300) :
    authClassify (.response st sm (.json v)) =
      (if allowedOf v then .allowed else .denied) ∧
    (authClassify (.response st sm (.json v)) = .allowed ↔
      truthyAllowedStr (lowerStr (pyStr (allowedRaw v))) = true) ∧
    (∀ m, authClassify (.response st sm (.json v)) ≠ .checkFailed m) ∧
    authClassify (.response st sm (.json (.dict [("allowed", .str "true")]))) = .allowed ∧
    authClassify (.response st sm (.json (.dict [("allowed", .str "YES")]))) = .allowed ∧
    authClassify (.response st sm (.json (.dict [("allowed", .str "no")]))) = .denied ∧
    authClassify (.response st sm (.json (.dict []))) = .denied ∧
    authClassify (.response st sm (.json (.list [.str "true"]))) = .denied := by
  have hst : is2xx st = true := by
    simp only [is2xx, Bool.and_eq_true, decide_eq_true_eq]
    omega
  have hdef : allowedOf v = truthyAllowedStr (lowerStr (pyStr (allowedRaw v))) := rfl
  refine ⟨by simp [authClassify, hst], ?_, ?_, ?_, ?_, ?_, ?_, ?_⟩
  · rw [← hdef]
    cases hv : allowedOf v <;> simp [authClassify, hst, hv]
  · intro m
    cases hv : allowedOf v <;> simp [authClassify, hst, hv]
  all_goals simp [authClassify, hst]; decide

/-- C2 witness: instantiated at status 200. -/
theorem C2_allowed_value_decides_witness :
    authClassify (.response 200 "" (.json (.dict [("allowed", .str "1")]))) =
      (if allowedOf (.dict [("allowed", .str "1")]) then .allowed else .denied) :=
  (C2_allowed_value_decides 200 "" (.dict [("allowed", .str "1")])
    (by decide) (by decide)).1

/-- The concrete world of the C3 counterexample: the signing key is missing,
everything else is valid and the authorization service answers
`allowed: "true"`. -/
def w3cex : World :=
  ⟨envOf [("EDGEX_ACCOUNT_ID", "42")], .absent,
    .response 200 "" (.json (.dict [("allowed", .str "true")])), false⟩

/-- C3 counterexample: the claim "missing signing key aborts before any
network call is made" is false — with the signing key missing and everything
else valid, the authorization HTTP call is still attempted (the credential
checks sit after the gate, lines 97-100 vs 67-86). -/
theorem C3_counterexample :
    ¬ (∀ w : World, truthy (resolveSdkKey w.env) = false →
        (Ev.httpAuthGet ∉ (mainRun w).1 ∧ Ev.mkAdapter ∉ (mainRun w).1)) := by
  intro hall
  exact (hall w3cex (by decide)).1 (by decide)

/-- C3 amended: if `signing_key` or `account_id` is missing (falsy) after
resolution, the process aborts before the adapter constructor is ever
invoked (and the engine is never started) — but only after the
authorization network call, not before it. -/
theorem C3_amended_missing_credentials_block (w : World) (kvs : List (String × PyVal))
    (hcfg : loadCfg w.cfgFile = Except.ok (.dict kvs))
    (h : truthy (resolveSdkKey w.env) = false ∨ truthy (resolveApiId w.env kvs) = false) :
    Ev.mkAdapter ∉ (mainRun w).1 ∧ Ev.mkEngine ∉ (mainRun w).1 ∧
    isStarted (mainRun w).2 = false := by
  have hb : (!(mainRun w).1.contains Ev.mkAdapter && !(mainRun w).1.contains Ev.mkEngine &&
      !isStarted (mainRun w).2) = true := by
    unfold mainRun mainWithCfg
    rw [hcfg]
    dsimp only
    repeat' split
    all_goals first
      | rfl
      | (rcases h with h | h <;> simp_all)
  simp only [Bool.and_eq_true, Bool.not_eq_true'] at hb
  exact ⟨by simpa using hb.1.1, by simpa using hb.1.2, hb.2⟩

/-- C3 amended witness: a run with the signing key missing never constructs
the adapter or engine. -/
theorem C3_amended_missing_credentials_block_witness :
    Ev.mkAdapter ∉ (mainRun ⟨envOf [("EDGEX_ACCOUNT_ID", "77")], .absent,
        .response 200 "" (.json (.dict [("allowed", .str "yes")])), false⟩).1 ∧
    Ev.mkEngine ∉ (mainRun ⟨envOf [("EDGEX_ACCOUNT_ID", "77")], .absent,
        .response 200 "" (.json (.dict [("allowed", .str "yes")])), false⟩).1 ∧
    isStarted (mainRun ⟨envOf [("EDGEX_ACCOUNT_ID", "77")], .absent,
        .response 200 "" (.json (.dict [("allowed", .str "yes")])), false⟩).2 = false :=
  C3_amended_missing_credentials_block _ [] rfl (Or.inl (by decide))

/-- C4 counterexample: for `symbol_param_name` the claim "an empty value at
one level falls through to the next level" is false.  With
`EDGEX_SYMBOL_PARAM` set to the empty string and the config file providing
`symbol_param: "foo"`, the script resolves the empty string (presence-based
`os.getenv(k, default)`), while the spec's first-non-empty chain would
resolve `"foo"`. -/
theorem C4_counterexample :
    resolveSymbolParam (envOf [("EDGEX_SYMBOL_PARAM", "")])
        [("symbol_param", .str "foo")] = PyVal.str "" ∧
    symbolParamSpecChain (envOf [("EDGEX_SYMBOL_PARAM", "")])
        [("symbol_param", .str "foo")] = PyVal.str "foo" ∧
    PyVal.str "" ≠ PyVal.str "foo" :=
  ⟨rfl, rfl, by simp⟩

/-- C4 amended: for `base_url`, `account_id`, `signing_key`, `symbol` and
`poll_interval_seconds` the resolution is exactly the left-to-right
first-non-empty (truthy) chain the claim describes — a non-empty environment
value beats the config value, which beats the default, and empty values fall
through.  For `symbol_param_name` alone the lookup is presence-based: a SET
environment variable wins even when empty, and otherwise a PRESENT config
key wins even when empty, with `"contractId"` as the final default. -/
theorem C4_amended_precedence_chains (env : String → Option String)
    (kvs : List (String × PyVal)) :
    resolveBaseUrl env kvs =
      chainFirstTruthy [envVal env "EDGEX_BASE_URL", dictGet kvs "base_url"]
        (.str "https://pro.edgex.exchange") ∧
    resolveApiId env kvs =
      chainFirstTruthy
        [envVal env "EDGEX_ACCOUNT_ID", envVal env "EDGEX_API_ID", dictGet kvs "account_id"]
        (dictGet kvs "api_id") ∧
    resolveSdkKey env =
      chainFirstTruthy [envVal env "EDGEX_STARK_PRIVATE_KEY"] (envVal env "EDGEX_L2_KEY") ∧
    resolveSymbol env kvs =
      chainFirstTruthy
        [envVal env "EDGEX_CONTRACT_ID", envVal env "EDGEX_SYMBOL",
          dictGet kvs "symbol", dictGet kvs "contract_id"] (.str "10000001") ∧
    resolvePollRaw env kvs =
      chainFirstTruthy [envVal env "EDGEX_POLL_INTERVAL_SEC"]
        (dictGetD kvs "poll_interval_sec" (.float pollDefault)) ∧
    (∀ s, env "EDGEX_SYMBOL_PARAM" = some s → resolveSymbolParam env kvs = .str s) ∧
    (env "EDGEX_SYMBOL_PARAM" = Option.none →
      resolveSymbolParam env kvs = dictGetD kvs "symbol_param" (.str "contractId")) := by
  refine ⟨rfl, rfl, rfl, ?_, rfl, ?_, ?_⟩
  · unfold resolveSymbol chainFirstTruthy pyOr
    by_cases h1 : truthy (envVal env "EDGEX_CONTRACT_ID") = true <;>
      by_cases h2 : truthy (envVal env "EDGEX_SYMBOL") = true <;>
      by_cases h3 : truthy (dictGet kvs "symbol") = true <;>
      simp [h1, h2, h3, chainFirstTruthy]
  · intro s hs
    unfold resolveSymbolParam getenvD
    rw [hs]
  · intro hs
    unfold resolveSymbolParam getenvD
    rw [hs]

/-- C4 amended witness: the presence-based hypotheses discharged at a set
and at an unset environment variable. -/
theorem C4_amended_precedence_chains_witness :
    resolveSymbolParam (envOf [("EDGEX_SYMBOL_PARAM", "px")]) [] = PyVal.str "px" ∧
    resolveSymbolParam (envOf []) [("symbol_param", .str "cfgp")] =
      dictGetD [("symbol_param", .str "cfgp")] "symbol_param" (.str "contractId") :=
  ⟨(C4_amended_precedence_chains (envOf [("EDGEX_SYMBOL_PARAM", "px")]) []).2.2.2.2.2.1
      "px" rfl,
    (C4_amended_precedence_chains (envOf []) [("symbol_param", .str "cfgp")]).2.2.2.2.2.2 rfl⟩

/-- The concrete world of the C5 example conjunct: the environment forces the
placeholder URL `https://example.com`. -/
def w5cex : World :=
  ⟨envOf [("EDGEX_BASE_URL", "https://example.com")], .absent, .netError "t", false⟩

/-- C5: base-URL validation fails exactly when the parsed URL has an empty
scheme or empty network location, or its hostname contains the placeholder
substring `"example"`; `"pro.edgex.exchange"` (bare hostname) fails,
`"https://pro.edgex.exchange"` passes, `"https://example.com"` is rejected
as a placeholder, and a run with the placeholder base URL aborts with the
placeholder message before the authorization call. -/
theorem C5_base_url_validation :
    (∀ u : String, (validateBaseUrl u).isSome = true ↔
      (urlScheme u = "" ∨ urlNetloc u = "" ∨
        ∃ h, urlHostname u = some h ∧ strContains h "example" = true)) ∧
    validateBaseUrl "pro.edgex.exchange" = some msgBadBaseUrl ∧
    validateBaseUrl "https://pro.edgex.exchange" = Option.none ∧
    validateBaseUrl "https://example.com" = some msgPlaceholderUrl ∧
    mainRun w5cex = ([], .exit msgPlaceholderUrl) := by
  refine ⟨?_, by decide, by decide, by decide, by rfl⟩
  intro u
  unfold validateBaseUrl
  by_cases h1 : urlScheme u = "" ∨ urlNetloc u = ""
  · rw [if_pos h1]
    simp only [Option.isSome_some, true_iff]
    rcases h1 with h | h
    · exact Or.inl h
    · exact Or.inr (Or.inl h)
  · simp only [h1, if_false]
    match hh : urlHostname u with
    | Option.none => simp [hh, h1]
    | some h =>
      by_cases he : strContains h "example" = true <;> simp [he, h1]

/-- C6: the resolved poll interval never goes below the 1.5-second floor:
a raw value that fails numeric conversion falls back to the default 2.5
(rather than failing), a numeric value below the floor is coerced up to the
floor, and a numeric value at or above the floor is kept. -/
theorem C6_poll_interval_floor (env : String → Option String)
    (kvs : List (String × PyVal)) :
    pollFloor = (3 / 2 : ℚ) ∧ pollDefault = (5 / 2 : ℚ) ∧
    pollFloor ≤ resolvePoll env kvs ∧
    (pyFloat (resolvePollRaw env kvs) = Option.none → resolvePoll env kvs = pollDefault) ∧
    (∀ q : ℚ, pyFloat (resolvePollRaw env kvs) = some q → q < pollFloor →
      resolvePoll env kvs = pollFloor) ∧
    (∀ q : ℚ, pyFloat (resolvePollRaw env kvs) = some q → pollFloor ≤ q →
      resolvePoll env kvs = q) := by
  have hf : pollFloor = (3 / 2 : ℚ) := by
    rw [pollFloor, Rat.divInt_eq_div]
    norm_num
  have hd : pollDefault = (5 / 2 : ℚ) := by
    rw [pollDefault, Rat.divInt_eq_div]
    norm_num
  refine ⟨hf, hd, ?_, ?_, ?_, ?_⟩
  · unfold resolvePoll
    match hp : pyFloat (resolvePollRaw env kvs) with
    | some q =>
      dsimp only
      split
      · exact le_refl _
      · exact le_of_not_lt (by assumption)
    | Option.none =>
      dsimp only
      split
      · exact le_refl _
      · exact le_of_not_lt (by assumption)
  · intro hnone
    unfold resolvePoll
    rw [hnone]
    have : ¬ pollDefault < pollFloor := by rw [hf, hd]; norm_num
    simp [this]
  · intro q hq hlt
    unfold resolvePoll
    rw [hq]
    simp [hlt]
  · intro q hq hge
    unfold resolvePoll
    rw [hq]
    simp [not_lt_of_le hge]

/-- C6 witness: a non-numeric environment value resolves to the default 2.5;
a numeric value below the floor resolves to the floor 1.5. -/
theorem C6_poll_interval_floor_witness :
    resolvePoll (envOf [("EDGEX_POLL_INTERVAL_SEC", "abc")]) [] = pollDefault ∧
    resolvePoll (envOf [("EDGEX_POLL_INTERVAL_SEC", "0.5")]) [] = pollFloor :=
  ⟨(C6_poll_interval_floor (envOf [("EDGEX_POLL_INTERVAL_SEC", "abc")]) []).2.2.2.1 rfl,
    (C6_poll_interval_floor (envOf [("EDGEX_POLL_INTERVAL_SEC", "0.5")]) []).2.2.2.2.1
      (Rat.divInt 5 10) rfl (by decide)⟩

/-- C7: the symbol/contract identifier resolves by the five-step
first-non-empty chain `EDGEX_CONTRACT_ID` → `EDGEX_SYMBOL` → config `symbol`
→ config `contract_id` → `"10000001"`; with no sources set, the default
`"10000001"` results. -/
theorem C7_symbol_resolution_chain (env : String → Option String)
    (kvs : List (String × PyVal)) :
    resolveSymbol env kvs =
      chainFirstTruthy
        [envVal env "EDGEX_CONTRACT_ID", envVal env "EDGEX_SYMBOL",
          dictGet kvs "symbol", dictGet kvs "contract_id"] (.str "10000001") ∧
    resolveSymbol (envOf []) [] = .str "10000001" := by
  refine ⟨?_, rfl⟩
  unfold resolveSymbol chainFirstTruthy pyOr
  by_cases h1 : truthy (envVal env "EDGEX_CONTRACT_ID") = true <;>
    by_cases h2 : truthy (envVal env "EDGEX_SYMBOL") = true <;>
    by_cases h3 : truthy (dictGet kvs "symbol") = true <;>
    simp [h1, h2, h3, chainFirstTruthy]

/-- C8: file-logging setup failure is swallowed (`except Exception: pass`):
two runs that differ only in whether logging setup raises behave
identically. -/
theorem C8_logging_failures_swallowed (w : World) (b1 b2 : Bool) :
    mainRun { w with logSetupFails := b1 } = mainRun { w with logSetupFails := b2 } := rfl

/-- The concrete world of the C9 counterexample: the config file exists and
parses to the empty list (a non-mapping). -/
def w9cex : World :=
  ⟨envOf [("EDGEX_ACCOUNT_ID", "9")], .parsed (.list []),
    .response 200 "" (.json (.dict [])), false⟩

/-- C9 counterexample: the claim "only absence of the config file yields an
empty mapping; a non-mapping top-level value causes an unhandled attribute
error" is false — a present file whose top level is the (falsy, non-mapping)
empty list is converted to the empty mapping by `safe_load(f) or {}`, and
the run proceeds past config loading with no `AttributeError` (here to the
auth-denial exit, since `{}` has no truthy `allowed`). -/
theorem C9_counterexample :
    loadCfg (CfgFile.parsed (.list [])) = .ok (.dict []) ∧
    mainRun w9cex = ([Ev.httpAuthGet], .exit (msgAuthDenied "9")) :=
  ⟨rfl, rfl⟩

/-- C9 amended: absence of the config file — or a present file whose parsed
top level is FALSY (empty file, empty list, empty mapping, ...) — yields the
empty mapping; an unparseable file propagates an unhandled YAML error; a
TRUTHY non-mapping top level causes an unhandled `AttributeError` at the
first config lookup; neither error is reported as one of the spec's fatal
error kinds. -/
theorem C9_amended_config_loading (w : World) (v : PyVal) :
    loadCfg CfgFile.absent = .ok (.dict []) ∧
    (truthy v = false → loadCfg (.parsed v) = .ok (.dict [])) ∧
    (w.cfgFile = CfgFile.unparseable → mainRun w = ([], .pyError "yaml.YAMLError")) ∧
    (w.cfgFile = CfgFile.parsed v → truthy v = true → (∀ kvs, v ≠ .dict kvs) →
      mainRun w = ([], .pyError "AttributeError")) := by
  refine ⟨rfl, ?_, ?_, ?_⟩
  · intro hf
    show Except.ok (if truthy v = true then v else PyVal.dict []) = _
    rw [hf]
    rfl
  · intro hc
    unfold mainRun
    rw [hc]
    rfl
  · intro hc ht hnd
    have hl : loadCfg (.parsed v) = .ok v := by
      show Except.ok (if truthy v = true then v else PyVal.dict []) = _
      rw [ht]
      rfl
    unfold mainRun
    rw [hc, hl]
    dsimp only
    cases v
    case dict kvs => exact absurd rfl (hnd kvs)
    all_goals rfl

/-- C9 amended witness: an empty parsed file yields the empty mapping, an
unparseable file propagates the YAML error, and a truthy non-mapping file
raises `AttributeError`. -/
theorem C9_amended_config_loading_witness :
    loadCfg (CfgFile.parsed .none) = .ok (.dict []) ∧
    mainRun ⟨envOf [], CfgFile.unparseable, .netError "t", false⟩ =
      ([], .pyError "yaml.YAMLError") ∧
    mainRun ⟨envOf [], CfgFile.parsed (.list [.intv 1]), .netError "t", false⟩ =
      ([], .pyError "AttributeError") :=
  ⟨(C9_amended_config_loading ⟨envOf [], CfgFile.absent, .netError "t", false⟩ .none).2.1 rfl,
    (C9_amended_config_loading ⟨envOf [], CfgFile.unparseable, .netError "t", false⟩
      .none).2.2.1 rfl,
    (C9_amended_config_loading ⟨envOf [], CfgFile.parsed (.list [.intv 1]), .netError "t", false⟩
      (.list [.intv 1])).2.2.2 rfl rfl (fun kvs h => by cases h)⟩

/-- C10: a resolved `account_id` that is a non-empty string but not a valid
integer literal passes the missing-account check and the authorization gate;
the run then dies in `int(api_id)` with an unhandled `ValueError` while
evaluating the adapter's arguments — the adapter is never constructed and no
descriptive configuration message is produced. -/
theorem C10_nonint_account_id (w : World) (kvs : List (String × PyVal)) (s bu : String)
    (hcfg : loadCfg w.cfgFile = Except.ok (.dict kvs))
    (hapi : resolveApiId w.env kvs = .str s)
    (hne : s ≠ "")
    (hint : pyIntStr s = Option.none)
    (hbu : resolveBaseUrl w.env kvs = .str bu)
    (hval : validateBaseUrl bu = Option.none)
    (hauth : authClassify w.auth = AuthDecision.allowed)
    (hkey : truthy (resolveSdkKey w.env) = true) :
    mainRun w = ([Ev.httpAuthGet], .pyError "ValueError") ∧
    Ev.mkAdapter ∉ (mainRun w).1 := by
  have hbne : bu ≠ "" := by
    intro he
    rw [he] at hval
    exact absurd hval (by decide)
  have hbt : truthy (resolveBaseUrl w.env kvs) = true := by
    rw [hbu]
    simpa [truthy] using hbne
  have hat : truthy (resolveApiId w.env kvs) = true := by
    rw [hapi]
    simpa [truthy] using hne
  have hmain : mainRun w = ([Ev.httpAuthGet], .pyError "ValueError") := by
    unfold mainRun mainWithCfg
    rw [hcfg]
    dsimp only
    rw [if_pos hbt, hbu]
    dsimp only
    rw [hval]
    dsimp only
    rw [hauth]
    dsimp only
    rw [if_neg (by simp [hkey]), if_neg (by simp [hat]), hapi]
    dsimp only [pyIntOf]
    rw [hint]
  exact ⟨hmain, by rw [hmain]; simp⟩

/-- C10 witness: `EDGEX_ACCOUNT_ID=abc` with a signing key set and the
authorization service allowing reaches `int("abc")` and dies with
`ValueError`. -/
theorem C10_nonint_account_id_witness :
    mainRun ⟨envOf [("EDGEX_ACCOUNT_ID", "abc"), ("EDGEX_STARK_PRIVATE_KEY", "sk")], .absent,
        .response 200 "" (.json (.dict [("allowed", .str "1")])), false⟩ =
      ([Ev.httpAuthGet], .pyError "ValueError") ∧
    Ev.mkAdapter ∉ (mainRun ⟨envOf [("EDGEX_ACCOUNT_ID", "abc"),
        ("EDGEX_STARK_PRIVATE_KEY", "sk")], .absent,
        .response 200 "" (.json (.dict [("allowed", .str "1")])), false⟩).1 :=
  C10_nonint_account_id _ [] "abc" "https://pro.edgex.exchange"
    rfl rfl (by decide) rfl rfl (by decide) rfl (by decide)

end EdgeXBoot
